import Mathlib

/-!
Verification of the wunderflats apartment crawler
(`src/python_version/crawler.py` and `src/python_version/main.py`).

The Python program is shallowly embedded:

* HTML documents (the result of `BeautifulSoup(response.text, "html.parser")`)
  are modelled as a forest of `Html` trees.
* The BeautifulSoup queries used by the program (`soup.find`, `soup.find_all`,
  `tag.find`, `.text`, attribute access) are modelled as recursive functions
  over that forest.  `soup.find` searches the whole document in document
  (pre-)order; `tag.find` searches only the tag's descendants.
* The network is a parameter: a function `fetch : String → FetchResult`
  returning either a parsed document (a successful `requests.get` followed by
  a non-raising `raise_for_status`) or one of the exception outcomes caught
  by the program's `except` clauses.
* Python string operations are modelled on `List Char` / `String`
  (`.strip()` as `pyStrip`, `.split(",")` as `pySplit`, `.startswith` as
  `pyStartsWith`, the `in` operator as `hasSub`).
-/

/-- A parsed HTML node: an element with a tag name, attributes and children,
or a text node. -/
inductive Html where
  | elem (tag : String) (attrs : List (String × String)) (children : List Html)
  | text (s : String)

/-- Look up an attribute value on an attribute list (first occurrence wins,
as in parsed HTML). -/
def attrLookup (attrs : List (String × String)) (key : String) : Option String :=
  match attrs with
  | [] => none
  | (k, v) :: rest => if k = key then some v else attrLookup rest key

/-- The attribute value of an element node, `none` on text nodes or when the
attribute is absent. -/
def Html.attr (n : Html) (key : String) : Option String :=
  match n with
  | .elem _ attrs _ => attrLookup attrs key
  | .text _ => none

mutual
/-- BeautifulSoup `.text` / `get_text()`: the concatenation of all descendant
text nodes in document order. -/
def Html.getText : Html → String
  | .text s => s
  | .elem _ _ children => Html.getTextList children

/-- The `.text` of a forest of nodes, concatenated in order. -/
def Html.getTextList : List Html → String
  | [] => ""
  | n :: rest => Html.getText n ++ Html.getTextList rest
end

mutual
/-- First node of a forest (document order, a node before its descendants)
satisfying `p`: the model of `soup.find` with the document as the forest. -/
def findFirst (p : Html → Bool) : List Html → Option Html
  | [] => none
  | n :: rest =>
    match findFirstNode p n with
    | some r => some r
    | none => findFirst p rest

/-- First node in the subtree rooted at a node (the node itself, then its
descendants in document order) satisfying `p`. -/
def findFirstNode (p : Html → Bool) : Html → Option Html
  | .text s => if p (.text s) then some (.text s) else none
  | .elem t a cs =>
    if p (.elem t a cs) then some (.elem t a cs) else findFirst p cs
end

mutual
/-- All nodes of a forest (document order) satisfying `p`: the model of
`soup.find_all`. -/
def findAllF (p : Html → Bool) : List Html → List Html
  | [] => []
  | n :: rest => findAllNode p n ++ findAllF p rest

/-- All nodes in the subtree rooted at a node satisfying `p`, document order. -/
def findAllNode (p : Html → Bool) : Html → List Html
  | .text s => if p (.text s) then [.text s] else []
  | .elem t a cs =>
    (if p (.elem t a cs) then [.elem t a cs] else []) ++ findAllF p cs
end

/-- BeautifulSoup `tag.find(p)`: searches the tag's descendants only, not the
tag itself. -/
def Html.findIn (n : Html) (p : Html → Bool) : Option Html :=
  match n with
  | .elem _ _ cs => findFirst p cs
  | .text _ => none

/-- Python `s.startswith(p)`, implemented on the underlying character lists
so that it evaluates by kernel reduction. -/
def pyStartsWith (s p : String) : Bool :=
  p.data.isPrefixOf s.data

/-- Python `sub in s` on strings: `sub` occurs as a contiguous substring. -/
def hasSubChars : List Char → List Char → Bool
  | s, sub =>
    if sub.isPrefixOf s then true
    else
      match s with
      | [] => false
      | _ :: t => hasSubChars t sub

/-- Python `sub in s` lifted to `String`. -/
def hasSub (s sub : String) : Bool :=
  hasSubChars s.data sub.data

/-- Python `s.split(sep)` for a one-character separator: split at every
occurrence, keeping empty segments; the result is never empty. -/
def pySplitChars (sep : Char) : List Char → List (List Char)
  | [] => [[]]
  | c :: t =>
    if c = sep then [] :: pySplitChars sep t
    else
      match pySplitChars sep t with
      | [] => [[c]]
      | h :: r => (c :: h) :: r

/-- Python `s.split(sep)` lifted to `String`. -/
def pySplit (sep : Char) (s : String) : List String :=
  (pySplitChars sep s.data).map (fun l => String.mk l)

/-- Python `s.strip()`: remove whitespace from both ends. -/
def pyStrip (s : String) : String :=
  String.mk
    (((s.data.dropWhile Char.isWhitespace).reverse.dropWhile
        Char.isWhitespace).reverse)

/-- BeautifulSoup's match of a `class_` string filter against a class
attribute value: the filter matches any single class of the multi-valued
attribute, or the exact full attribute string. -/
def classMatches (query attrVal : String) : Bool :=
  query == attrVal || (pySplit ' ' attrVal).contains query

/-- An element with the given tag name. -/
def matchesTag (tag : String) (n : Html) : Bool :=
  match n with
  | .elem t _ _ => t = tag
  | .text _ => false

/-- An element with the given tag name whose `class` attribute matches the
given `class_` filter. -/
def matchesTagClass (tag cls : String) (n : Html) : Bool :=
  match n with
  | .elem t attrs _ =>
    t = tag &&
      (match attrLookup attrs "class" with
       | some v => classMatches cls v
       | none => false)
  | .text _ => false

/-- An element with the given tag name carrying the given attribute with the
given exact value (the model of `soup.find(tag, attrs={key: val})`). -/
def matchesTagAttr (tag key val : String) (n : Html) : Bool :=
  match n with
  | .elem t attrs _ =>
    t = tag &&
      (match attrLookup attrs key with
       | some v => v = val
       | none => false)
  | .text _ => false

/-- An anchor element carrying an `href` attribute: the filter of
`soup.find_all("a", href=True)`. -/
def isAnchorWithHref (n : Html) : Bool :=
  match n with
  | .elem t attrs _ => t = "a" && (attrLookup attrs "href").isSome
  | .text _ => false


/-- Characters of the authority component: everything up to the first
`/`, `?` or `#`. -/
def takeAuthority : List Char → List Char
  | [] => []
  | c :: t => if c = '/' || c = '?' || c = '#' then [] else c :: takeAuthority t

/-- The `scheme://authority` part of a URL: everything through the first `://` plus
the authority that follows.  If the URL has no `://`, the whole string is
returned (such URLs never satisfy `hasSchemeAuthority`). -/
def schemeAuthChars : List Char → List Char
  | ':' :: '/' :: '/' :: rest => ':' :: '/' :: '/' :: takeAuthority rest
  | c :: t => c :: schemeAuthChars t
  | [] => []

/-- The `scheme://authority` prefix of a URL string. -/
def schemeAuthority (url : String) : String :=
  String.mk (schemeAuthChars url.data)

/-- The URL contains a `://`, i.e. it is an absolute URL with an authority
component. -/
def hasSchemeAuthority : List Char → Bool
  | ':' :: '/' :: '/' :: _ => true
  | _ :: t => hasSchemeAuthority t
  | [] => false

/-- A character allowed in a URL scheme after the first one. -/
def isSchemeChar (c : Char) : Bool :=
  c.isAlphanum || c = '+' || c = '-' || c = '.'

/-- There is a colon and every character before the first colon is a scheme
character. -/
def schemeColonScan : List Char → Bool
  | [] => false
  | c :: t => if c = ':' then true else if isSchemeChar c then schemeColonScan t else false

/-- Model of `urllib.parse.urlsplit` scheme detection: the string starts with a
letter and has a colon preceded only by scheme characters. -/
def refHasScheme (l : List Char) : Bool :=
  match l with
  | [] => false
  | c :: _ => c.isAlpha && schemeColonScan l

/-- Model of `urllib.parse.urljoin(base, ref)` for the reference shapes the
program produces.  Every href retained by `crawl` begins with
`/en/furnished-apartment/`, an absolute path, for which the join keeps the
base's scheme and authority and replaces the path with the reference.  A
reference that is itself an absolute URL is returned unchanged; a
network-path reference (`//…`) receives the base's scheme. -/
def urljoin (base ref : String) : String :=
  if refHasScheme ref.data then ref
  else if pyStartsWith ref "//" then
    String.mk (takeWhileNotColon base.data) ++ ":" ++ ref
  else if pyStartsWith ref "/" then
    schemeAuthority base ++ ref
  else if ref = "" then base
  else
    String.mk (dropLastSegment (schemeRelPath base.data)) ++ ref
where
  /-- the scheme of the base URL: characters before the first `:` -/
  takeWhileNotColon : List Char → List Char
    | [] => []
    | c :: t => if c = ':' then [] else c :: takeWhileNotColon t
  /-- the base URL without its query and fragment -/
  schemeRelPath : List Char → List Char
    | [] => []
    | c :: t => if c = '?' || c = '#' then [] else c :: schemeRelPath t
  /-- drop everything after the last `/` (keeping the `/`) -/
  dropLastSegment (l : List Char) : List Char :=
    (l.reverse.dropWhile (fun c => c ≠ '/')).reverse

/-- Outcome of the fetch-and-parse step (`requests.get` with a 10 s timeout
and then `response.raise_for_status`), at the abstraction level of the
exceptions the program catches:

* `success doc` — the request succeeded, `raise_for_status` did not raise,
  and the body parsed to the document `doc`;
* `transportError` — `requests.get` raised a `RequestException` for a
  network/transport failure (e.g. a connection timeout);
* `httpError` — `raise_for_status` raised an `HTTPError` for a failure
  HTTP status (e.g. 404);
* `otherError` — any other exception, caught by the generic handler. -/
inductive FetchResult where
  | success (doc : List Html)
  | transportError (msg : String)
  | httpError (status : Nat) (msg : String)
  | otherError (msg : String)

/-- The href filter of `crawl`: listing links start with this fixed path. -/
def listingPathMarker : String := "/en/furnished-apartment/"

/-- The loop body of `crawl`: for each href, keep it when it starts with the
listing-path marker, resolve it against the page URL, and append it to the
accumulator unless already present. -/
def crawlLoop (pageUrl : String) : List String → List String → List String
  | [], acc => acc
  | href :: rest, acc =>
    if pyStartsWith href listingPathMarker then
      let fullUrl := urljoin pageUrl href
      if fullUrl ∈ acc then crawlLoop pageUrl rest acc
      else crawlLoop pageUrl rest (acc ++ [fullUrl])
    else crawlLoop pageUrl rest acc

/-- The hrefs of all anchors of a document carrying an href attribute, in
document order: `soup.find_all("a", href=True)` followed by `link["href"]`. -/
def anchorHrefs (doc : List Html) : List String :=
  (findAllF isAnchorWithHref doc).filterMap (fun n => n.attr "href")

/-- Model of `crawler.crawl`: fetch a search-results page and extract apartment
listing links.  On any caught exception the accumulator — still empty, since
the exception arises at the fetch/parse step — is returned. -/
def crawl (url : String) (fetch : String → FetchResult) : List String :=
  match fetch url with
  | .success doc => crawlLoop url (anchorHrefs doc) []
  | _ => []


/-- The record built by `extract_apartment_details`: a Python dict with the
eight keys inserted in this order at initialization. -/
structure ApartmentDetails where
  url : String
  title : String
  price : String
  size : String
  rooms : String
  address : String
  description : String
  availability : String
deriving DecidableEq, Repr

/-- The dict as initialized at the top of `extract_apartment_details`,
before the `try` block: every field at its sentinel default. -/
def defaultDetails (url : String) : ApartmentDetails :=
  { url := url
    title := "Not Found"
    price := "Not Found"
    size := "Not Found"
    rooms := "Not Found"
    address := "Not Found"
    description := "Not Found"
    availability := "Not implemented" }

/-- The key/value pairs of the record in dict insertion order — the order
`details.items()` and `dict.keys()` iterate, hence the CSV column order. -/
def ApartmentDetails.fieldPairs (d : ApartmentDetails) : List (String × String) :=
  [("url", d.url), ("title", d.title), ("price", d.price), ("size", d.size),
   ("rooms", d.rooms), ("address", d.address), ("description", d.description),
   ("availability", d.availability)]

/-- The title block of `extract_apartment_details`:
`soup.find("h2", class_="ListingDetails-title")`, tolerant of absence. -/
def titleStep (doc : List Html) (details : ApartmentDetails) : ApartmentDetails :=
  match findFirst (matchesTagClass "h2" "ListingDetails-title") doc with
  | some t => { details with title := pyStrip t.getText }
  | none => details

/-- The address block: the `data-testid` lookup, else the
`ListingDetails-basic` fallback with its `" (fallback)"` suffix. -/
def addressStep (doc : List Html) (details : ApartmentDetails) : ApartmentDetails :=
  match findFirst (matchesTagAttr "span" "data-testid" "ListingDetailsPage-address") doc with
  | some a => { details with address := pyStrip a.getText }
  | none =>
    match findFirst (matchesTagClass "div" "ListingDetails-basic") doc with
    | some basicDiv =>
      match basicDiv.findIn (matchesTag "span") with
      | some sp => { details with address := pyStrip sp.getText ++ " (fallback)" }
      | none => details
    | none => details

/-- The size lookup inside the stats container: the nested span's text,
stripped, split at commas, first part stripped. -/
def sizeStep (stats : Html) (details : ApartmentDetails) : ApartmentDetails :=
  match stats.findIn (matchesTagClass "span" "ListingDetails-statsElt floor") with
  | some sizeSpan =>
    match sizeSpan.findIn (matchesTag "span") with
    | some inner =>
      match pySplit ',' (pyStrip inner.getText) with
      | [] => details
      | p :: _ => { details with size := pyStrip p }
    | none => details
  | none => details

/-- The rooms lookup inside the stats container. -/
def roomsStep (stats : Html) (details : ApartmentDetails) : ApartmentDetails :=
  match stats.findIn (matchesTagClass "span" "ListingDetails-statsElt rooms") with
  | some roomsSpan =>
    match roomsSpan.findIn (matchesTag "span") with
    | some inner => { details with rooms := pyStrip inner.getText }
    | none => details
  | none => details

/-- The stats block: when the container is present, the size and rooms
lookups run inside it, in that order. -/
def statsStep (doc : List Html) (details : ApartmentDetails) : ApartmentDetails :=
  match findFirst (matchesTagClass "div" "ListingDetails-stats") doc with
  | some stats => roomsStep stats (sizeStep stats details)
  | none => details

/-- The price block: value from the strong-tagged element, with the unit
span appended when its text contains "per month". -/
def priceStep (doc : List Html) (details : ApartmentDetails) : ApartmentDetails :=
  match findFirst (matchesTagClass "div" "ListingPriceText__wrapper") doc with
  | some wrapper =>
    match wrapper.findIn (matchesTagClass "strong" "ListingPriceText__value"),
          wrapper.findIn (matchesTag "span") with
    | some v, some u =>
      if hasSub u.getText "per month" then
        { details with price := pyStrip v.getText ++ " " ++ pyStrip u.getText }
      else { details with price := pyStrip v.getText }
    | some v, none => { details with price := pyStrip v.getText }
    | none, _ => details
  | none => details

/-- The description block: unlike the others, the `else` branch also writes
the field (with a descriptive fallback string). -/
def descriptionStep (doc : List Html) (details : ApartmentDetails) : ApartmentDetails :=
  match findFirst (matchesTagClass "div" "description") doc with
  | some d => { details with description := pyStrip d.getText }
  | none =>
    { details with
        description := "Description section not found (using generic selector)" }

/-- The field-extraction body of `extract_apartment_details` run on a
successfully fetched and parsed document: the source's blocks applied in
source order to the dict of sentinel defaults. -/
def extractFromDoc (url : String) (doc : List Html) : ApartmentDetails :=
  descriptionStep doc
    (priceStep doc (statsStep doc (addressStep doc (titleStep doc (defaultDetails url)))))

/-- Model of `crawler.extract_apartment_details`: fetch an apartment page and extract
details.  Any caught exception leaves the dict as initialized; the dict is
returned in every case. -/
def extract_apartment_details (url : String) (fetch : String → FetchResult) :
    ApartmentDetails :=
  match fetch url with
  | .success doc => extractFromDoc url doc
  | _ => defaultDetails url

/-- The search-results page URL built by the driver for a page number:
the fixed template of `main.py` with the page number substituted. -/
def pageUrlTemplate (n : Nat) : String :=
  "https://wunderflats.com/en/furnished-apartments/berlin/" ++ toString n ++
    "?from=2025-07-01&to=2025-09-30&flexibleDays=14&scoreVariant=B" ++
    "&minRooms=3&homeType=ENTIRE_APARTMENT&minSize=60"

/-- The links the driver discovers for a given page number. -/
def driverLinks (fetch : String → FetchResult) (n : Nat) : List String :=
  crawl (pageUrlTemplate n) fetch

/-- The driver's `while True` loop, over an abstract per-page link-discovery
function.  `fuel` bounds the number of iterations so the function is total;
the loop itself has no page ceiling.  Returns `none` when the loop is still
running after `fuel` iterations, and otherwise the pages visited (in order)
together with the page number at which the loop stopped. -/
def runLoopPages (links : Nat → List String) :
    Nat → Nat → List Nat → Option (List Nat × Nat)
  | 0, _, _ => none
  | fuel + 1, page, visited =>
    if links page = [] then some (visited ++ [page], page)
    else runLoopPages links fuel (page + 1) (visited ++ [page])

/-- The driver's loop with its record accumulator: each iteration appends,
for every discovered link in order, the record returned by
`extract_apartment_details` (a dict with eight keys is always truthy, so the
`if details:` guard always appends). -/
def runDriver (fetch : String → FetchResult) :
    Nat → Nat → List ApartmentDetails → Option (List ApartmentDetails × Nat)
  | 0, _, _ => none
  | fuel + 1, page, acc =>
    let links := driverLinks fetch page
    if links = [] then some (acc, page)
    else
      runDriver fetch fuel (page + 1)
        (acc ++ links.map (fun l => extract_apartment_details l fetch))

/-- The rows written to the CSV file by the driver, as lists of cell values:
`none` when the accumulator is empty (no file is created); otherwise a
header row holding the first record's keys in dict order, then one row per
record, values in header order — the model of `csv.DictWriter` with
`fieldnames = all_apartment_details[0].keys()`, `writeheader()`,
`writerows(all_apartment_details)`. -/
def csvRows (records : List ApartmentDetails) : Option (List (List String)) :=
  match records with
  | [] => none
  | first :: _ =>
    some ((first.fieldPairs.map Prod.fst) ::
      records.map (fun r => r.fieldPairs.map Prod.snd))

/-- Spec-side: first-seen-order deduplication of a list (keep the first
occurrence of each element, drop the rest). -/
def dedupKeepFirst : List String → List String
  | [] => []
  | x :: xs => x :: dedupKeepFirst (xs.filter (fun y => y ≠ x))
termination_by l => l.length
decreasing_by
  simp only [List.length_cons]
  exact Nat.lt_succ_of_le (List.length_filter_le _ _)

/-- Spec-side: the absolute URL a standards-compliant URL join produces for
an absolute-path reference (RFC 3986 §5.3 with an absolute path: the target
keeps the base URI's scheme and authority and takes its path from the
reference). -/
def rfcJoinAbsPath (base ref : String) : String :=
  schemeAuthority base ++ ref

/-- Spec-side: the content of a string before its first comma. -/
def beforeFirstComma (s : String) : String :=
  String.mk (s.data.takeWhile (fun c => c ≠ ','))

/-- The value `extract_apartment_details` stores in the `title` field of a
successfully parsed document. -/
def titleField (doc : List Html) : String :=
  match findFirst (matchesTagClass "h2" "ListingDetails-title") doc with
  | some t => pyStrip t.getText
  | none => "Not Found"

/-- The value `extract_apartment_details` stores in the `address` field of a
successfully parsed document. -/
def addressField (doc : List Html) : String :=
  match findFirst (matchesTagAttr "span" "data-testid" "ListingDetailsPage-address") doc with
  | some a => pyStrip a.getText
  | none =>
    match findFirst (matchesTagClass "div" "ListingDetails-basic") doc with
    | some basicDiv =>
      match basicDiv.findIn (matchesTag "span") with
      | some sp => pyStrip sp.getText ++ " (fallback)"
      | none => "Not Found"
    | none => "Not Found"

/-- The value `extract_apartment_details` stores in the `size` field of a
successfully parsed document. -/
def sizeField (doc : List Html) : String :=
  match findFirst (matchesTagClass "div" "ListingDetails-stats") doc with
  | some stats =>
    match stats.findIn (matchesTagClass "span" "ListingDetails-statsElt floor") with
    | some sizeSpan =>
      match sizeSpan.findIn (matchesTag "span") with
      | some inner =>
        match pySplit ',' (pyStrip inner.getText) with
        | [] => "Not Found"
        | p :: _ => pyStrip p
      | none => "Not Found"
    | none => "Not Found"
  | none => "Not Found"

/-- The value `extract_apartment_details` stores in the `rooms` field of a
successfully parsed document. -/
def roomsField (doc : List Html) : String :=
  match findFirst (matchesTagClass "div" "ListingDetails-stats") doc with
  | some stats =>
    match stats.findIn (matchesTagClass "span" "ListingDetails-statsElt rooms") with
    | some roomsSpan =>
      match roomsSpan.findIn (matchesTag "span") with
      | some inner => pyStrip inner.getText
      | none => "Not Found"
    | none => "Not Found"
  | none => "Not Found"

/-- The value `extract_apartment_details` stores in the `price` field of a
successfully parsed document. -/
def priceField (doc : List Html) : String :=
  match findFirst (matchesTagClass "div" "ListingPriceText__wrapper") doc with
  | some wrapper =>
    match wrapper.findIn (matchesTagClass "strong" "ListingPriceText__value"),
          wrapper.findIn (matchesTag "span") with
    | some v, some u =>
      if hasSub u.getText "per month" then
        pyStrip v.getText ++ " " ++ pyStrip u.getText
      else pyStrip v.getText
    | some v, none => pyStrip v.getText
    | none, _ => "Not Found"
  | none => "Not Found"

/-- The value `extract_apartment_details` stores in the `description` field
of a successfully parsed document. -/
def descriptionField (doc : List Html) : String :=
  match findFirst (matchesTagClass "div" "description") doc with
  | some d => pyStrip d.getText
  | none => "Description section not found (using generic selector)"

/-- The listing hrefs of a page, each resolved against the page URL, in
document order with duplicates kept: the stream of URLs the loop body of
`crawl` appends from. -/
def resolvedLinks (pageUrl : String) (hrefs : List String) : List String :=
  (hrefs.filter (fun h => pyStartsWith h listingPathMarker)).map (urljoin pageUrl)

/-- Applying `titleStep` writes the title lookup into a record whose title is still
the sentinel default. -/
theorem titleStep_spec (doc : List Html) (d : ApartmentDetails)
    (h : d.title = "Not Found") :
    titleStep doc d = { d with title := titleField doc } := by
  cases d
  dsimp only at h
  subst h
  unfold titleStep titleField
  repeat' split
  all_goals rfl

/-- Applying `addressStep` writes the address lookup (with its fallback path) into a
record whose address is still the sentinel default. -/
theorem addressStep_spec (doc : List Html) (d : ApartmentDetails)
    (h : d.address = "Not Found") :
    addressStep doc d = { d with address := addressField doc } := by
  cases d
  dsimp only at h
  subst h
  unfold addressStep addressField
  repeat' split
  all_goals rfl

/-- Applying `statsStep` writes the size and rooms lookups into a record whose size
and rooms are still the sentinel defaults. -/
theorem statsStep_spec (doc : List Html) (d : ApartmentDetails)
    (hs : d.size = "Not Found") (hr : d.rooms = "Not Found") :
    statsStep doc d = { d with size := sizeField doc, rooms := roomsField doc } := by
  cases d
  dsimp only at hs hr
  subst hs
  subst hr
  unfold statsStep sizeStep roomsStep sizeField roomsField
  repeat' split
  all_goals rfl

/-- Applying `priceStep` writes the price lookup into a record whose price is still
the sentinel default. -/
theorem priceStep_spec (doc : List Html) (d : ApartmentDetails)
    (h : d.price = "Not Found") :
    priceStep doc d = { d with price := priceField doc } := by
  cases d
  dsimp only at h
  subst h
  unfold priceStep priceField
  repeat' split
  all_goals rfl

/-- Applying `descriptionStep` always writes the description field. -/
theorem descriptionStep_spec (doc : List Html) (d : ApartmentDetails) :
    descriptionStep doc d = { d with description := descriptionField doc } := by
  unfold descriptionStep descriptionField
  split <;> rfl

/-- Decomposition of the extraction body: the record built by the sequence
of tolerant updates is the record whose fields are the independent per-field
lookups (each source block writes a distinct dict key). -/
theorem extractFromDoc_eq (url : String) (doc : List Html) :
    extractFromDoc url doc =
      { url := url
        title := titleField doc
        price := priceField doc
        size := sizeField doc
        rooms := roomsField doc
        address := addressField doc
        description := descriptionField doc
        availability := "Not implemented" } := by
  unfold extractFromDoc
  rw [titleStep_spec doc _ rfl, addressStep_spec doc _ rfl,
    statsStep_spec doc _ rfl rfl, priceStep_spec doc _ rfl,
    descriptionStep_spec doc _]
  rfl

/-- The first segment of a Python split is the content before the first
separator. -/
theorem pySplitChars_head (sep : Char) (l : List Char) :
    ∃ r, pySplitChars sep l = l.takeWhile (fun c => c ≠ sep) :: r := by
  induction l with
  | nil => exact ⟨[], rfl⟩
  | cons c t ih =>
    obtain ⟨r, hr⟩ := ih
    by_cases hc : c = sep
    · exact ⟨pySplitChars sep t, by simp [pySplitChars, hc, List.takeWhile_cons]⟩
    · exact ⟨r, by simp [pySplitChars, hc, hr, List.takeWhile_cons]⟩

/-- The result of `pySplit` is never empty and its head is the content before the first
separator. -/
theorem pySplit_head (sep : Char) (s : String) :
    ∃ r, pySplit sep s =
      String.mk (s.data.takeWhile (fun c => c ≠ sep)) :: r := by
  obtain ⟨r, hr⟩ := pySplitChars_head sep s.data
  exact ⟨r.map (fun l => String.mk l), by simp [pySplit, hr]⟩

/-- First-seen deduplication preserves membership. -/
theorem mem_dedupKeepFirst (l : List String) (a : String) :
    a ∈ dedupKeepFirst l ↔ a ∈ l := by
  induction l using dedupKeepFirst.induct with
  | case1 => simp [dedupKeepFirst]
  | case2 x xs ih =>
    rw [dedupKeepFirst]
    simp only [ne_eq, decide_not] at ih ⊢
    by_cases hax : a = x
    · simp [hax]
    · simp only [List.mem_cons, hax, false_or, ih, List.mem_filter]
      simp [hax]

/-- First-seen deduplication yields a list without duplicates. -/
theorem nodup_dedupKeepFirst (l : List String) : (dedupKeepFirst l).Nodup := by
  induction l using dedupKeepFirst.induct with
  | case1 => simp [dedupKeepFirst]
  | case2 x xs ih =>
    rw [dedupKeepFirst]
    refine List.nodup_cons.mpr ⟨?_, ih⟩
    rw [mem_dedupKeepFirst]
    simp [List.mem_filter]

/-- The loop body of `crawl` appends, after the given accumulator, the
first-seen deduplication of those resolved listing links not already in the
accumulator. -/
theorem crawlLoop_eq (pageUrl : String) (hrefs : List String) :
    ∀ acc, crawlLoop pageUrl hrefs acc =
      acc ++ dedupKeepFirst
        ((resolvedLinks pageUrl hrefs).filter (fun x => x ∉ acc)) := by
  induction hrefs with
  | nil => intro acc; simp [crawlLoop, resolvedLinks, dedupKeepFirst]
  | cons h t ih =>
    intro acc
    have hres : ∀ (b : Bool), pyStartsWith h listingPathMarker = b →
        b = true → resolvedLinks pageUrl (h :: t) =
          urljoin pageUrl h :: resolvedLinks pageUrl t := by
      intro b hb hbt
      subst hbt
      simp only [resolvedLinks, List.filter_cons, hb, if_true, List.map_cons]
    by_cases hp : pyStartsWith h listingPathMarker
    · by_cases hm : urljoin pageUrl h ∈ acc
      · rw [crawlLoop]
        simp only [hp, if_true, hm, if_pos]
        rw [ih acc, hres true hp rfl]
        congr 2
        rw [List.filter_cons]
        simp [hm]
      · rw [crawlLoop]
        simp only [hp, if_true, hm, if_neg, not_false_iff]
        rw [ih (acc ++ [urljoin pageUrl h]), hres true hp rfl]
        rw [List.filter_cons]
        have hmem : (decide (urljoin pageUrl h ∉ acc)) = true := by simp [hm]
        simp only [hmem, if_true]
        rw [dedupKeepFirst, List.append_assoc]
        congr 2
        rw [List.singleton_append]
        congr 2
        rw [List.filter_filter]
        apply List.filter_congr
        intro x hx
        by_cases hxf : x = urljoin pageUrl h
        · simp [hxf]
        · by_cases hxa : x ∈ acc <;> simp [hxf, hxa]
    · rw [crawlLoop]
      simp only [hp, if_neg, Bool.false_eq_true, not_false_iff]
      rw [ih acc]
      congr 2
      simp only [resolvedLinks, List.filter_cons, hp]
      simp

/-- The loop visits consecutive pages: starting at page `p` with enough
fuel, and `k` the first page at or after `p` whose link discovery is empty,
the loop visits exactly pages `p, p+1, …, k` and stops at `k`. -/
theorem runLoopPages_spec (links : Nat → List String) (k : Nat)
    (hke : links k = []) (fuel : Nat) :
    ∀ (p : Nat) (visited : List Nat), p ≤ k → k - p < fuel →
      (∀ j, p ≤ j → j < k → links j ≠ []) →
      runLoopPages links fuel p visited =
        some (visited ++ List.range' p (k - p + 1), k) := by
  induction fuel with
  | zero =>
    intro p visited hp hf hne
    omega
  | succ fuel ih =>
    intro p visited hp hf hne
    rw [runLoopPages]
    by_cases hpk : p = k
    · subst hpk
      rw [if_pos hke]
      have h1 : p - p + 1 = 1 := by omega
      rw [h1, List.range'_one]
    · have hplt : p < k := lt_of_le_of_ne hp hpk
      have hnp : links p ≠ [] := hne p le_rfl hplt
      rw [if_neg hnp]
      rw [ih (p + 1) (visited ++ [p]) (by omega) (by omega)
        (fun j hj1 hj2 => hne j (by omega) hj2)]
      have h2 : k - p + 1 = (k - (p + 1) + 1) + 1 := by omega
      conv_rhs => rw [h2, List.range'_succ]
      simp [List.append_assoc]

/-- If link discovery never returns an empty sequence, the loop never
terminates (there is no page-count ceiling or other stopping rule). -/
theorem runLoopPages_no_ceiling (links : Nat → List String)
    (h : ∀ n, links n ≠ []) (fuel : Nat) :
    ∀ (p : Nat) (visited : List Nat),
      runLoopPages links fuel p visited = none := by
  induction fuel with
  | zero => intro p visited; rfl
  | succ fuel ih =>
    intro p visited
    rw [runLoopPages, if_neg (h p)]
    exact ih (p + 1) (visited ++ [p])

/-- C1: For every detail URL whose fetch fails with a transport error (e.g.
a connection timeout) or a failing HTTP status (e.g. 404),
`extract_apartment_details` returns a record in which every field holds its
sentinel default and the url field equals the requested URL.  The function
returns this record normally — the error is caught and not propagated. -/
theorem extract_details_error_defaults (url : String)
    (fetch : String → FetchResult)
    (h : (∃ msg, fetch url = .transportError msg) ∨
         (∃ status msg, fetch url = .httpError status msg)) :
    extract_apartment_details url fetch = defaultDetails url ∧
    (extract_apartment_details url fetch).url = url ∧
    (extract_apartment_details url fetch).title = "Not Found" ∧
    (extract_apartment_details url fetch).price = "Not Found" ∧
    (extract_apartment_details url fetch).size = "Not Found" ∧
    (extract_apartment_details url fetch).rooms = "Not Found" ∧
    (extract_apartment_details url fetch).address = "Not Found" ∧
    (extract_apartment_details url fetch).description = "Not Found" ∧
    (extract_apartment_details url fetch).availability = "Not implemented" := by
  have he : extract_apartment_details url fetch = defaultDetails url := by
    rcases h with ⟨msg, hm⟩ | ⟨st, msg, hm⟩ <;>
      simp [extract_apartment_details, hm]
  rw [he]
  exact ⟨rfl, rfl, rfl, rfl, rfl, rfl, rfl, rfl, rfl⟩

/-- Witness for C1: a 404 on a concrete URL yields the all-default record. -/
theorem extract_details_error_defaults_witness :
    extract_apartment_details "https://w/en/furnished-apartment/a"
        (fun _ => FetchResult.httpError 404 "Not Found") =
      defaultDetails "https://w/en/furnished-apartment/a" :=
  (extract_details_error_defaults "https://w/en/furnished-apartment/a"
    (fun _ => FetchResult.httpError 404 "Not Found")
    (Or.inr ⟨404, "Not Found", rfl⟩)).1

/-- C2: the driver loop starts at page 1, increments the counter by 1 each
iteration, and stops exactly at the first page whose link discovery is
empty (the pages visited are `1, …, k`); if link discovery is never empty
the loop runs forever — there is no page-count ceiling or other stopping
rule. -/
theorem driver_loop_pages (fetch : String → FetchResult) (k : Nat)
    (hk : 1 ≤ k)
    (hne : ∀ j, 1 ≤ j → j < k → driverLinks fetch j ≠ [])
    (hke : driverLinks fetch k = []) (fuel : Nat) (hf : k ≤ fuel) :
    runLoopPages (driverLinks fetch) fuel 1 [] =
      some (List.range' 1 k, k) ∧
    (∀ g : Nat → List String, (∀ n, g n ≠ []) →
      ∀ f p v, runLoopPages g f p v = none) := by
  constructor
  · have h := runLoopPages_spec (driverLinks fetch) k hke fuel 1 [] hk
      (by omega) hne
    have h1 : k - 1 + 1 = k := by omega
    rw [h, h1]
    simp
  · exact fun g hg f p v => runLoopPages_no_ceiling g hg f p v

/-- Witness for C2: with every fetch failing, page 1 yields no links and
the loop stops there having visited exactly page 1. -/
theorem driver_loop_pages_witness :
    runLoopPages (driverLinks (fun _ => FetchResult.transportError "timeout"))
        1 1 [] = some (List.range' 1 1, 1) :=
  (driver_loop_pages (fun _ => FetchResult.transportError "timeout") 1 le_rfl
    (fun j h1 h2 => absurd (Nat.lt_of_lt_of_le h2 h1) (lt_irrefl j))
    rfl 1 le_rfl).1

/-- C3: on a successfully fetched page, `crawl` returns the first-seen-order
deduplication of the resolved listing links: the result has no duplicates,
and every resolved URL — however many anchors produced it — contributes
exactly one entry. -/
theorem crawl_dedup_first_seen (url : String) (fetch : String → FetchResult)
    (doc : List Html) (hf : fetch url = .success doc) :
    crawl url fetch = dedupKeepFirst (resolvedLinks url (anchorHrefs doc)) ∧
    (crawl url fetch).Nodup ∧
    (∀ u, u ∈ resolvedLinks url (anchorHrefs doc) →
      (crawl url fetch).count u = 1) := by
  have hc : crawl url fetch =
      dedupKeepFirst (resolvedLinks url (anchorHrefs doc)) := by
    simp only [crawl, hf]
    rw [crawlLoop_eq]
    simp
  refine ⟨hc, ?_, ?_⟩
  · rw [hc]
    exact nodup_dedupKeepFirst _
  · intro u hu
    rw [hc]
    exact List.count_eq_one_of_mem (nodup_dedupKeepFirst _)
      ((mem_dedupKeepFirst _ _).mpr hu)

/-- Witness for C3: two anchors with the same href contribute one entry. -/
theorem crawl_dedup_first_seen_witness :
    (crawl "https://site/en/furnished-apartments/berlin/1"
        (fun _ => FetchResult.success
          [Html.elem "a" [("href", "/en/furnished-apartment/x")] [],
           Html.elem "a" [("href", "/en/furnished-apartment/x")] [],
           Html.elem "a" [("href", "/en/furnished-apartment/y")] []])).count
      "https://site/en/furnished-apartment/x" = 1 :=
  (crawl_dedup_first_seen "https://site/en/furnished-apartments/berlin/1"
    (fun _ => FetchResult.success
      [Html.elem "a" [("href", "/en/furnished-apartment/x")] [],
       Html.elem "a" [("href", "/en/furnished-apartment/x")] [],
       Html.elem "a" [("href", "/en/furnished-apartment/y")] []])
    _ rfl).2.2 "https://site/en/furnished-apartment/x" (by decide)

/-- C4: a successfully fetched detail page containing none of the targeted
markup patterns yields the record of sentinel defaults, except that the
description holds the descriptive fallback string (distinct from the
generic "Not Found" sentinel) and availability is always the fixed
sentinel. -/
theorem extract_details_no_patterns (url : String)
    (fetch : String → FetchResult) (doc : List Html)
    (hf : fetch url = .success doc)
    (h1 : findFirst (matchesTagClass "h2" "ListingDetails-title") doc = none)
    (h2 : findFirst
      (matchesTagAttr "span" "data-testid" "ListingDetailsPage-address") doc = none)
    (h3 : findFirst (matchesTagClass "div" "ListingDetails-basic") doc = none)
    (h4 : findFirst (matchesTagClass "div" "ListingDetails-stats") doc = none)
    (h5 : findFirst (matchesTagClass "div" "ListingPriceText__wrapper") doc = none)
    (h6 : findFirst (matchesTagClass "div" "description") doc = none) :
    extract_apartment_details url fetch =
      { defaultDetails url with
          description :=
            "Description section not found (using generic selector)" } ∧
    (extract_apartment_details url fetch).availability = "Not implemented" ∧
    "Description section not found (using generic selector)" ≠ "Not Found" := by
  have he : extract_apartment_details url fetch =
      { defaultDetails url with
          description :=
            "Description section not found (using generic selector)" } := by
    simp only [extract_apartment_details, hf, extractFromDoc_eq]
    simp [titleField, addressField, sizeField, roomsField, priceField,
      descriptionField, h1, h2, h3, h4, h5, h6, defaultDetails]
  exact ⟨he, by rw [he]; rfl, by decide⟩

/-- Witness for C4: the empty document misses every pattern. -/
theorem extract_details_no_patterns_witness :
    extract_apartment_details "u" (fun _ => FetchResult.success []) =
      { defaultDetails "u" with
          description :=
            "Description section not found (using generic selector)" } :=
  (extract_details_no_patterns "u" (fun _ => FetchResult.success []) []
    rfl rfl rfl rfl rfl rfl rfl).1

/-- C5: with `N > 0` collected records the CSV has exactly `N + 1` rows —
one header row holding the first record's field names in dict order, then
the `N` records in accumulation order; with no records, no file is
created. -/
theorem csv_rows_shape (records : List ApartmentDetails)
    (h : records ≠ []) :
    (∃ rows, csvRows records = some rows ∧
      rows.length = records.length + 1 ∧
      rows = ((records.head h).fieldPairs.map Prod.fst) ::
        records.map (fun r => r.fieldPairs.map Prod.snd)) ∧
    csvRows ([] : List ApartmentDetails) = none := by
  refine ⟨?_, rfl⟩
  cases records with
  | nil => exact absurd rfl h
  | cons first rest =>
    exact ⟨_, rfl, by simp [List.length_map], rfl⟩

/-- Witness for C5: one collected record yields a two-row CSV. -/
theorem csv_rows_shape_witness :
    csvRows [defaultDetails "u"] =
      some [["url", "title", "price", "size", "rooms", "address",
             "description", "availability"],
            ["u", "Not Found", "Not Found", "Not Found", "Not Found",
             "Not Found", "Not Found", "Not implemented"]] := by
  obtain ⟨⟨rows, hr, hlen, hrw⟩, hnil⟩ :=
    csv_rows_shape [defaultDetails "u"] (List.cons_ne_nil _ _)
  rw [hr, hrw]
  rfl

/-- C6: for a successfully fetched page whose price wrapper is found, the
price field is: the trimmed value text, a space, and the trimmed text of
the first span inside the wrapper, when both are present and that span's
text contains "per month"; the trimmed value text alone when the value is
present but there is no such span (no span at all, or the first span
without the marker); and the sentinel default when the value element is
absent. -/
theorem extract_details_price (url : String) (fetch : String → FetchResult)
    (doc : List Html) (wrapper : Html)
    (hf : fetch url = .success doc)
    (hw : findFirst (matchesTagClass "div" "ListingPriceText__wrapper") doc =
      some wrapper) :
    (∀ v u,
      wrapper.findIn (matchesTagClass "strong" "ListingPriceText__value") = some v →
      wrapper.findIn (matchesTag "span") = some u →
      hasSub u.getText "per month" = true →
      (extract_apartment_details url fetch).price =
        pyStrip v.getText ++ " " ++ pyStrip u.getText) ∧
    (∀ v,
      wrapper.findIn (matchesTagClass "strong" "ListingPriceText__value") = some v →
      (wrapper.findIn (matchesTag "span") = none ∨
        (∃ u, wrapper.findIn (matchesTag "span") = some u ∧
          hasSub u.getText "per month" = false)) →
      (extract_apartment_details url fetch).price = pyStrip v.getText) ∧
    (wrapper.findIn (matchesTagClass "strong" "ListingPriceText__value") = none →
      (extract_apartment_details url fetch).price = "Not Found") := by
  have hp : (extract_apartment_details url fetch).price = priceField doc := by
    simp [extract_apartment_details, hf, extractFromDoc_eq]
  refine ⟨?_, ?_, ?_⟩
  · intro v u hv hu hm
    rw [hp]
    simp [priceField, hw, hv, hu, hm]
  · intro v hv hcase
    rw [hp]
    rcases hcase with hnone | ⟨u, hu, hm⟩
    · simp [priceField, hw, hv, hnone]
    · simp [priceField, hw, hv, hu, hm]
  · intro hnone
    rw [hp]
    simp [priceField, hw, hnone]

/-- Witness for C6: value "500" and unit span " per month " produce
"500 per month". -/
theorem extract_details_price_witness :
    (extract_apartment_details "u"
      (fun _ => FetchResult.success
        [Html.elem "div" [("class", "ListingPriceText__wrapper")]
          [Html.elem "strong" [("class", "ListingPriceText__value")]
            [Html.text "500"],
           Html.elem "span" [] [Html.text " per month "]]])).price =
      "500 per month" :=
  ((extract_details_price "u"
      (fun _ => FetchResult.success
        [Html.elem "div" [("class", "ListingPriceText__wrapper")]
          [Html.elem "strong" [("class", "ListingPriceText__value")]
            [Html.text "500"],
           Html.elem "span" [] [Html.text " per month "]]])
      _ _ rfl rfl).1 _ _ rfl rfl rfl).trans (by decide)

/-- C7: when the stats container, the size span and its nested span are all
found, the size field is the trimmed content before the first comma of the
nested span's trimmed text (the "98 m², floor 2" → "98 m²" rule). -/
theorem extract_details_size (url : String) (fetch : String → FetchResult)
    (doc : List Html) (stats sizeSpan inner : Html)
    (hf : fetch url = .success doc)
    (hs : findFirst (matchesTagClass "div" "ListingDetails-stats") doc = some stats)
    (hss : stats.findIn (matchesTagClass "span" "ListingDetails-statsElt floor") =
      some sizeSpan)
    (hin : sizeSpan.findIn (matchesTag "span") = some inner) :
    (extract_apartment_details url fetch).size =
      pyStrip (beforeFirstComma (pyStrip inner.getText)) := by
  have hszf : (extract_apartment_details url fetch).size = sizeField doc := by
    simp [extract_apartment_details, hf, extractFromDoc_eq]
  rw [hszf]
  obtain ⟨r, hr⟩ := pySplit_head ',' (pyStrip inner.getText)
  simp [sizeField, hs, hss, hin, hr, beforeFirstComma]

/-- Witness for C7: nested text "98 m², floor 2" yields size "98 m²". -/
theorem extract_details_size_witness :
    (extract_apartment_details "u"
      (fun _ => FetchResult.success
        [Html.elem "div" [("class", "ListingDetails-stats")]
          [Html.elem "span" [("class", "ListingDetails-statsElt floor")]
            [Html.elem "span" [] [Html.text "98 m², floor 2"]]]])).size =
      "98 m²" :=
  (extract_details_size "u"
    (fun _ => FetchResult.success
      [Html.elem "div" [("class", "ListingDetails-stats")]
        [Html.elem "span" [("class", "ListingDetails-statsElt floor")]
          [Html.elem "span" [] [Html.text "98 m², floor 2"]]]])
    _ _ _ _ rfl rfl rfl rfl).trans (by decide)

/-- C8: on a successfully fetched page, `crawl` keeps exactly the anchor
hrefs beginning with the fixed listing-path marker, each resolved against
the page URL (then first-seen deduplicated); and for every href with that
marker the resolution agrees with the standards-compliant join for an
absolute-path reference (base scheme and authority, reference path). -/
theorem crawl_href_resolution (url : String) (fetch : String → FetchResult)
    (doc : List Html) (hf : fetch url = .success doc) :
    crawl url fetch =
      dedupKeepFirst
        (((anchorHrefs doc).filter
            (fun h => pyStartsWith h listingPathMarker)).map (urljoin url)) ∧
    (∀ href, pyStartsWith href listingPathMarker = true →
      urljoin url href = rfcJoinAbsPath url href) := by
  constructor
  · simp only [crawl, hf]
    rw [crawlLoop_eq]
    simp [resolvedLinks]
  · intro href hpre
    obtain ⟨r, hr⟩ := List.isPrefixOf_iff_prefix.mp hpre
    have hchars : href.data =
        '/' :: 'e' :: ("n/furnished-apartment/".data ++ r) := by
      rw [← hr]
      rfl
    have c1 : refHasScheme href.data = false := by
      rw [hchars]
      rfl
    have c2 : pyStartsWith href "//" = false := by
      simp only [pyStartsWith, hchars]
      rfl
    have c3 : pyStartsWith href "/" = true := by
      simp only [pyStartsWith, hchars]
      rfl
    rw [urljoin, rfcJoinAbsPath]
    simp [c1, c2, c3]

/-- Witness for C8: the spec's example — a relative listing href on a
Berlin results page resolves to the site-rooted absolute URL. -/
theorem crawl_href_resolution_witness :
    crawl "https://site/en/furnished-apartments/berlin/1"
        (fun _ => FetchResult.success
          [Html.elem "a" [("href", "/en/furnished-apartment/x")] [],
           Html.elem "a" [("href", "https://other.example/en/page")] []]) =
      ["https://site/en/furnished-apartment/x"] ∧
    urljoin "https://site/en/furnished-apartments/berlin/1"
        "/en/furnished-apartment/x" =
      rfcJoinAbsPath "https://site/en/furnished-apartments/berlin/1"
        "/en/furnished-apartment/x" := by
  obtain ⟨h1, h2⟩ := crawl_href_resolution
    "https://site/en/furnished-apartments/berlin/1"
    (fun _ => FetchResult.success
      [Html.elem "a" [("href", "/en/furnished-apartment/x")] [],
       Html.elem "a" [("href", "https://other.example/en/page")] []])
    _ rfl
  refine ⟨h1.trans ?_, h2 "/en/furnished-apartment/x" (by decide)⟩
  rw [show ((anchorHrefs
        [Html.elem "a" [("href", "/en/furnished-apartment/x")] [],
         Html.elem "a" [("href", "https://other.example/en/page")] []]).filter
          (fun h => pyStartsWith h listingPathMarker)).map
            (urljoin "https://site/en/furnished-apartments/berlin/1") =
      ["https://site/en/furnished-apartment/x"] from by decide]
  simp [dedupKeepFirst]

/-- C9: a page URL whose fetch fails with a transport error or a failing
HTTP status makes `crawl` catch the error and return the empty sequence,
and an empty link-discovery result makes the driver loop terminate on that
iteration. -/
theorem crawl_error_empty (url : String) (fetch : String → FetchResult)
    (h : (∃ msg, fetch url = .transportError msg) ∨
         (∃ status msg, fetch url = .httpError status msg)) :
    crawl url fetch = [] ∧
    (∀ (links : Nat → List String) (fuel page : Nat) (visited : List Nat),
      links page = [] →
      runLoopPages links (fuel + 1) page visited =
        some (visited ++ [page], page)) := by
  constructor
  · rcases h with ⟨msg, hm⟩ | ⟨st, msg, hm⟩ <;> simp [crawl, hm]
  · intro links fuel page visited hl
    rw [runLoopPages, if_pos hl]

/-- Witness for C9: a connection timeout yields the empty link list. -/
theorem crawl_error_empty_witness :
    crawl "https://wunderflats.com/en/furnished-apartments/berlin/1"
        (fun _ => FetchResult.transportError "connection timeout") = [] :=
  (crawl_error_empty "https://wunderflats.com/en/furnished-apartments/berlin/1"
    (fun _ => FetchResult.transportError "connection timeout")
    (Or.inl ⟨"connection timeout", rfl⟩)).1

/-- C10: for every URL and every fetch outcome, the record returned by
`extract_apartment_details` has exactly the eight fields url, title, price,
size, rooms, address, description, availability in that fixed order, and
its url field is the input URL unchanged. -/
theorem extract_details_record_shape (url : String)
    (fetch : String → FetchResult) :
    (extract_apartment_details url fetch).url = url ∧
    (extract_apartment_details url fetch).fieldPairs.map Prod.fst =
      ["url", "title", "price", "size", "rooms", "address", "description",
       "availability"] := by
  constructor
  · cases hfu : fetch url with
    | success doc => simp [extract_apartment_details, hfu, extractFromDoc_eq]
    | transportError m => simp [extract_apartment_details, hfu, defaultDetails]
    | httpError s m => simp [extract_apartment_details, hfu, defaultDetails]
    | otherError m => simp [extract_apartment_details, hfu, defaultDetails]
  · rfl
